import Mathlib

/-!
Verification development for the data-analysis agent repository
(backend/agent.py, backend/llm_agent.py, backend/main.py and the
backend/toolkits modules).  Python values, exceptions and the
control flow of the orchestrator and of each self-correcting tool
loop are shallowly embedded as executable Lean definitions; external
effects (the LLM provider, script execution via exec, HTTP fetches,
pandas parsing) are abstracted as explicit outcome parameters, while
all control flow, validation, normalization and dispatch logic is
translated directly from the source.
-/

/-- Python exception values, tagged by class, carrying str(e). -/
inductive PyErr where
  | typeError (msg : String)
  | valueError (msg : String)
  | runtimeError (msg : String)
  | fileNotFoundError (msg : String)
  | attributeError (msg : String)
  | indexError (msg : String)
  | nameError (msg : String)
  deriving DecidableEq, Repr

/-- The message str(e) of a Python exception. -/
def pyErrStr : PyErr → String
  | .typeError m => m
  | .valueError m => m
  | .runtimeError m => m
  | .fileNotFoundError m => m
  | .attributeError m => m
  | .indexError m => m
  | .nameError m => m

/-- A pandas DataFrame, abstracted to its shape and an identity tag
(the tag distinguishes distinct tables parsed from one page). -/
structure DataFrame where
  rows : Nat
  cols : Nat
  tag : Nat
  deriving DecidableEq, Repr

/-- pandas DataFrame.empty: true when either axis has length zero. -/
def DataFrame.isEmptyDf (d : DataFrame) : Bool :=
  d.rows == 0 || d.cols == 0

/-- Python runtime values relevant to this program: None, strings,
plain ints, numpy scalar wrappers (which expose .item()), raw
bytes/bytearray buffers, PIL images (which expose .save(); the field
holds the PNG-encoded payload the save call would produce), pandas
DataFrames, booleans, lists and string-keyed dicts. -/
inductive PyVal where
  | none
  | str (s : String)
  | int (n : Int)
  | npscalar (n : Int)
  | bytes (b : List Nat)
  | pil (b : List Nat)
  | df (d : DataFrame)
  | bool (b : Bool)
  | list (xs : List PyVal)
  | dict (kvs : List (String × PyVal))
  deriving Repr

mutual

/-- Structural equality on embedded Python values. -/
def pyBeq : PyVal → PyVal → Bool
  | .none, .none => true
  | .str a, .str b => a == b
  | .int a, .int b => a == b
  | .npscalar a, .npscalar b => a == b
  | .bytes a, .bytes b => a == b
  | .pil a, .pil b => a == b
  | .df a, .df b => a == b
  | .bool a, .bool b => a == b
  | .list a, .list b => pyListBeq a b
  | .dict a, .dict b => pyDictBeq a b
  | _, _ => false

/-- Structural equality on lists of embedded Python values. -/
def pyListBeq : List PyVal → List PyVal → Bool
  | [], [] => true
  | a :: as', b :: bs' => pyBeq a b && pyListBeq as' bs'
  | _, _ => false

/-- Structural equality on string-keyed dicts of embedded Python values. -/
def pyDictBeq : List (String × PyVal) → List (String × PyVal) → Bool
  | [], [] => true
  | (ka, va) :: as', (kb, vb) :: bs' => ka == kb && pyBeq va vb && pyDictBeq as' bs'
  | _, _ => false

end

instance : BEq PyVal := ⟨pyBeq⟩

/-- Python str.lower(), restricted to ASCII case mapping. -/
def strLower (s : String) : String := String.mk (s.data.map Char.toLower)

/-- Python str.strip(): drop leading and trailing whitespace. -/
def pyStrip (s : String) : String :=
  String.mk (((s.data.dropWhile Char.isWhitespace).reverse.dropWhile Char.isWhitespace).reverse)

/-- Python substring containment over character lists: sub occurs in s. -/
def charsContain (sub : List Char) : List Char → Bool
  | [] => sub.isEmpty
  | c :: rest => sub.isPrefixOf (c :: rest) || charsContain sub rest

/-- Python membership test sub in s on strings. -/
def strContains (s sub : String) : Bool := charsContain sub.data s.data

/-- Python str.endswith(suffixPart). -/
def strEndsWith (s suffixPart : String) : Bool :=
  suffixPart.data.reverse.isPrefixOf s.data.reverse

/-- Python str.startswith(head). -/
def strStartsWith (s head : String) : Bool :=
  head.data.isPrefixOf s.data

/-- Index of the last occurrence of c in the character list, if any. -/
def lastIdxOf (c : Char) (cs : List Char) : Option Nat :=
  (List.range cs.length).foldl
    (fun acc i => if cs.getD i ' ' == c && cs.getD i '/' == c then some i else acc) Option.none

/-- os.path.splitext: split a path into root and extension; the dot
of the extension is the last dot of the basename, and names that are
all leading dots (such as .bashrc) have no extension. -/
def splitext (p : String) : String × String :=
  let cs := p.data
  let sepIdx : Nat := ((lastIdxOf '/' cs).map (· + 1)).getD 0
  match lastIdxOf '.' cs with
  | Option.none => (p, "")
  | some d =>
    if d < sepIdx then (p, "")
    else if (List.range (d - sepIdx)).all (fun j => cs.getD (sepIdx + j) '.' == '.') then
      (p, "")
    else
      (String.mk (cs.take d), String.mk (cs.drop d))

/-- The base64 alphabet. -/
def b64Alphabet : List Char :=
  "ABCDEFGHIJKLMNOPQRSTUVWXYZabcdefghijklmnopqrstuvwxyz0123456789+/".data

/-- A single base64 alphabet character. -/
def b64CharOf (n : Nat) : Char := b64Alphabet.getD n 'A'

/-- base64.b64encode over a byte list, producing the padded text. -/
def b64encode : List Nat → String
  | b0 :: b1 :: b2 :: rest =>
    String.mk [b64CharOf (b0 / 4), b64CharOf ((b0 % 4) * 16 + b1 / 16),
               b64CharOf ((b1 % 16) * 4 + b2 / 64), b64CharOf (b2 % 64)]
      ++ b64encode rest
  | [b0, b1] =>
    String.mk [b64CharOf (b0 / 4), b64CharOf ((b0 % 4) * 16 + b1 / 16),
               b64CharOf ((b1 % 16) * 4), '=']
  | [b0] =>
    String.mk [b64CharOf (b0 / 4), b64CharOf ((b0 % 4) * 16), '=', '=']
  | [] => ""

/-- Python truthiness of an embedded value.  (A pandas DataFrame has
no well-defined truth value in Python; plan inputs are JSON-derived,
so that case is unreachable here and is mapped to true.) -/
def pyTruthy : PyVal → Bool
  | .none => false
  | .str s => s ≠ ""
  | .int n => n ≠ 0
  | .npscalar n => n ≠ 0
  | .bytes b => ¬ b.isEmpty
  | .pil _ => true
  | .df _ => true
  | .bool b => b
  | .list xs => ¬ xs.isEmpty
  | .dict kvs => ¬ kvs.isEmpty

/-- Truthiness of an optional value (dict.get misses give None). -/
def optTruthy : Option PyVal → Bool
  | Option.none => false
  | some v => pyTruthy v

/-- isinstance(v, pd.DataFrame). -/
def pyIsDF : PyVal → Bool
  | .df _ => true
  | _ => false

/-- isinstance(v, dict). -/
def pyIsDict : PyVal → Bool
  | .dict _ => true
  | _ => false

/-- isinstance(v, str). -/
def pyIsStr : PyVal → Bool
  | .str _ => true
  | _ => false

/-- hasattr(v, "save"): only PIL images expose save here. -/
def hasSave : PyVal → Bool
  | .pil _ => true
  | _ => false

/-- isinstance(v, (bytes, bytearray)). -/
def isBytesLike : PyVal → Bool
  | .bytes _ => true
  | _ => false

/-- hasattr(v, "item"): numpy scalar wrappers expose item(). -/
def hasItem : PyVal → Bool
  | .npscalar _ => true
  | _ => false

/-- v.item() when the attribute exists, the value itself otherwise. -/
def itemVal : PyVal → PyVal
  | .npscalar n => .int n
  | v => v

/-- Lookup in a string-keyed dict (Python dict.get, returning None on
a miss). -/
def dictLookup (kvs : List (String × PyVal)) (k : String) : Option PyVal :=
  match kvs.find? (fun p => p.1 == k) with
  | some p => some p.2
  | Option.none => Option.none

/-- Whether a value is a raw in-memory binary buffer (bytes or a PIL
image object) rather than a transport-safe value. -/
def isRawBinary (v : PyVal) : Bool := hasSave v || isBytesLike v

/-- Whether a value is a self-describing data URI string. -/
def isDataUriStr : PyVal → Bool
  | .str s => strStartsWith s "data:"
  | _ => false

/-- backend/llm_agent.py LLM_PROVIDER: hard-coded to openai. -/
def LLM_PROVIDER : String := "openai"

/-- Body of the try block of llm in backend/llm_agent.py: dispatch on
the provider and return the stripped response text.  The provider
round trip (network call plus response.text/content access and strip)
is abstracted as an Except outcome: an error value stands for any
exception raised inside the try block. -/
def llmTryBody (provider : Except String String) : Except String String :=
  if LLM_PROVIDER == "gemini" then provider.map pyStrip
  else if LLM_PROVIDER == "openai" then provider.map pyStrip
  else .ok ("LLM error: Unknown provider " ++ LLM_PROVIDER)

/-- llm in backend/llm_agent.py: the whole body is wrapped in
try/except Exception, whose handler returns the sentinel string
"LLM error: " followed by str(e) instead of raising. -/
def llm (provider : Except String String) : String :=
  match llmTryBody provider with
  | .ok s => s
  | .error e => "LLM error: " ++ e

/-- The shared shape of every self-correcting tool retry loop
(for attempt in range(max_retries) with a try/except body): run the
attempt; on success return its value; on failure raise a terminal
RuntimeError when this was the last attempt, otherwise continue with
the next (corrected) attempt.  The trailing exhaustMsg RuntimeError
models the unconditional raise after the for loop. -/
def selfCorrectLoop (attemptRes : Nat → Except PyErr PyVal) (maxRetries : Nat)
    (terminalMsgPre : String) (exhaustMsg : String) : List Nat → Except PyErr PyVal
  | [] => .error (.runtimeError exhaustMsg)
  | a :: rest =>
    match attemptRes a with
    | .ok v => .ok v
    | .error e =>
      if a + 1 == maxRetries then
        .error (.runtimeError (terminalMsgPre ++ pyErrStr e))
      else
        selfCorrectLoop attemptRes maxRetries terminalMsgPre exhaustMsg rest

/-- to_base64_image in analyze_data (backend/toolkits/analyze.py):
PIL images are saved to a PNG buffer and bytes/bytearray values are
encoded directly; both become data:image/png;base64 URI strings, and
every other value passes through unchanged. -/
def to_base64_image (v : PyVal) : PyVal :=
  match v with
  | .pil b => .str ("data:image/png;base64," ++ b64encode b)
  | .bytes b => .str ("data:image/png;base64," ++ b64encode b)
  | v => v

/-- Post-execution processing of one analyze_data attempt
(backend/toolkits/analyze.py lines 130-164): normalize binary values
at top level and inside dict results to data URIs, then, if a result
was assigned, unwrap numpy scalar wrappers (top level, dict values,
list items) and return; a missing result raises ValueError. -/
def analyzePost (finalResult : PyVal) : Except PyErr PyVal :=
  let fr : PyVal :=
    match finalResult with
    | .dict kvs =>
      .dict (kvs.map (fun p =>
        if hasSave p.2 || isBytesLike p.2 then (p.1, to_base64_image p.2) else p))
    | v => if hasSave v || isBytesLike v then to_base64_image v else v
  match fr with
  | .none => .error (.valueError "Analysis code did not assign a value to the result variable.")
  | fr =>
    if hasItem fr then .ok (itemVal fr)
    else match fr with
      | .dict kvs => .ok (.dict (kvs.map (fun p => (p.1, itemVal p.2))))
      | .list xs => .ok (.list (xs.map itemVal))
      | v => .ok v

/-- One analyze_data attempt: the exec of the generated script is
abstracted as a per-attempt outcome (an exception, or the value the
script left in the result slot, None when it assigned nothing); a
successful exec is followed by the concrete post-processing. -/
def analyzeAttemptRes (execOutcome : Nat → Except PyErr PyVal) (a : Nat) :
    Except PyErr PyVal :=
  match execOutcome a with
  | .error e => .error e
  | .ok v => analyzePost v

/-- analyze_data (backend/toolkits/analyze.py): initial code is
generated once (an llm call, which cannot raise), then the
execute-validate-correct loop runs for at most max_retries attempts;
correction between attempts is reflected in the attempt index of the
abstract exec outcome. -/
def analyze_data (execOutcome : Nat → Except PyErr PyVal) (maxRetries : Nat := 3) :
    Except PyErr PyVal :=
  selfCorrectLoop (analyzeAttemptRes execOutcome) maxRetries
    ("Failed to analyze data after " ++ toString maxRetries ++ " attempts. Last error: ")
    "Analysis failed after all retries."
    (List.range maxRetries)

/-- Validation of one retrieve_data_as_df attempt
(backend/toolkits/duckdb_runner.py lines 119-126): the tool strictly
expects the script to leave a pandas DataFrame in the result slot. -/
def retrieveAttemptRes (execOutcome : Nat → Except PyErr PyVal) (a : Nat) :
    Except PyErr PyVal :=
  match execOutcome a with
  | .error e => .error e
  | .ok v =>
    if pyIsDF v then .ok v
    else .error (.valueError "Script did not return a pandas DataFrame.")

/-- retrieve_data_as_df (backend/toolkits/duckdb_runner.py): generate
an initial script (llm call, cannot raise), then run the bounded
self-correction loop. -/
def retrieve_data_as_df (execOutcome : Nat → Except PyErr PyVal) (maxRetries : Nat := 3) :
    Except PyErr PyVal :=
  selfCorrectLoop (retrieveAttemptRes execOutcome) maxRetries
    ("Script failed after " ++ toString maxRetries ++ " attempts. Last error: ")
    "DuckDB tool failed to execute after all retries."
    (List.range maxRetries)

/-- Keywords that make handle_file_task require tabular output. -/
def tableKeywords : List String := ["table", "dataframe", "tabular", "structured", "csv", "excel"]

/-- Keywords that make handle_file_task require text output. -/
def textKeywords : List String := ["text", "content", "extract text", "document"]

/-- Post-execution processing of one handle_file_task attempt
(backend/toolkits/file_handler.py lines 277-297): a missing result
raises ValueError; a table-keyword task requires a DataFrame or dict,
else a text-keyword task requires a string; then numpy scalar
wrappers are unwrapped as in analyze_data and the value returned. -/
def filePost (taskDescription : String) (finalResult : PyVal) : Except PyErr PyVal :=
  match finalResult with
  | .none => .error (.valueError "File handler code did not assign a value to the result variable.")
  | fr =>
    let taskLower := strLower taskDescription
    if tableKeywords.any (fun kw => strContains taskLower kw) &&
        ¬ (pyIsDF fr || pyIsDict fr) then
      .error (.valueError "Expected pandas DataFrame or dict of DataFrames for table data")
    else if ¬ tableKeywords.any (fun kw => strContains taskLower kw) &&
        textKeywords.any (fun kw => strContains taskLower kw) && ¬ pyIsStr fr then
      .error (.valueError "Expected string for text data")
    else if hasItem fr then .ok (itemVal fr)
    else match fr with
      | .dict kvs => .ok (.dict (kvs.map (fun p => (p.1, itemVal p.2))))
      | .list xs => .ok (.list (xs.map itemVal))
      | v => .ok v

/-- One handle_file_task attempt with the exec abstracted. -/
def fileAttemptRes (taskDescription : String) (execOutcome : Nat → Except PyErr PyVal)
    (a : Nat) : Except PyErr PyVal :=
  match execOutcome a with
  | .error e => .error e
  | .ok v => filePost taskDescription v

/-- _detect_file_type in backend/toolkits/file_handler.py. -/
def detectFileType (filePath : String) : String :=
  let ext := strLower (splitext filePath).2
  if ext == ".csv" then "csv"
  else if ext == ".xls" || ext == ".xlsx" then "excel"
  else if ext == ".png" || ext == ".jpg" || ext == ".jpeg" || ext == ".bmp" || ext == ".gif" then "image"
  else if ext == ".pdf" then "pdf"
  else "unknown"

/-- handle_file_task (backend/toolkits/file_handler.py): image files
bypass the loop entirely and are answered by one vision call whose
string response (or stringified error) is returned directly; every
other type goes through initial code generation and the bounded
self-correction loop. -/
def handle_file_task (filePath : String) (visionResponse : String)
    (taskDescription : String) (execOutcome : Nat → Except PyErr PyVal)
    (maxRetries : Nat := 3) : Except PyErr PyVal :=
  if detectFileType filePath == "image" then .ok (.str visionResponse)
  else
    selfCorrectLoop (fileAttemptRes taskDescription execOutcome) maxRetries
      ("Failed to handle file after " ++ toString maxRetries ++ " attempts. Last error: ")
      "File handler failed after all retries."
      (List.range maxRetries)

/-- int(re.search(r"\d+", s).group()): the first maximal digit run of
s as a number, or none when re.search finds no digit (in which case
the Python call raises AttributeError on NoneType). -/
def firstIntOf? (s : String) : Option Nat :=
  let cs := s.data.dropWhile (fun c => ¬ c.isDigit)
  let ds := cs.takeWhile Char.isDigit
  if ds.isEmpty then Option.none
  else some (ds.foldl (fun acc c => acc * 10 + (c.toNat - 48)) 0)

/-- Abstracted external effects of one extract_relevant_data call
(backend/toolkits/fetch.py): the HTTP fetch outcome, the outcome of
pandas.read_html on the fetched page, the LLM response to the
table-selection prompt, and the per-attempt exec outcome of the
LLM-generated fallback scraping scripts. -/
structure FetchEnv where
  httpError : Option PyErr
  readHtml : Except PyErr (List DataFrame)
  selectionResponse : String
  fallbackExec : Nat → Except PyErr PyVal

/-- Validation of one fallback scraping attempt
(backend/toolkits/fetch.py lines 167-188): the result slot must hold
a non-empty DataFrame with at least one column and one row. -/
def fetchAttemptRes (env : FetchEnv) (a : Nat) : Except PyErr PyVal :=
  match env.fallbackExec a with
  | .error e => .error e
  | .ok v =>
    match v with
    | .df d =>
      if ¬ d.isEmptyDf then
        if d.cols > 0 && d.rows > 0 then .ok (.df d)
        else .error (.valueError "Generated DataFrame is empty or has no columns.")
      else .error (.valueError "Generated DataFrame is empty.")
    | _ => .error (.valueError "Fallback code did not return a DataFrame.")

/-- Strategy 2 of extract_relevant_data: the scrape-fallback loop.
Each attempt first calls llm_generate_scraping_code (one oracle
call), then executes and validates the generated script; failures
are recorded and the loop simply continues; exhausting all attempts
raises the terminal RuntimeError.  The second component counts
oracle (llm) calls made so far. -/
def fetchFallbackGo (env : FetchEnv) : List Nat → Nat → Except PyErr PyVal × Nat
  | [], calls => (.error (.runtimeError "All scraping strategies failed."), calls)
  | a :: rest, calls =>
    match fetchAttemptRes env a with
    | .ok v => (.ok v, calls + 1)
    | .error _ => fetchFallbackGo env rest (calls + 1)

/-- Strategy 1 of extract_relevant_data (backend/toolkits/fetch.py
lines 113-156), run inside a try block: parse tables with read_html;
zero tables raise ValueError; exactly one table is returned directly
with no oracle call; with several tables one llm call selects an
index, whose parse failure or out-of-range value raises inside the
try.  Errors carry the number of oracle calls made before failing. -/
def extractStrategy1 (env : FetchEnv) : Except (PyErr × Nat) (PyVal × Nat) :=
  match env.readHtml with
  | .error e => .error (e, 0)
  | .ok [] => .error (.valueError "pandas.read_html found no tables on the page.", 0)
  | .ok [t] => .ok (.df t, 0)
  | .ok tables =>
    match firstIntOf? env.selectionResponse with
    | Option.none => .error (.attributeError "NoneType object has no attribute group", 1)
    | some i =>
      if h : i < tables.length then .ok (.df (tables.get ⟨i, h⟩), 1)
      else .error (.indexError "list index out of range", 1)

/-- extract_relevant_data (backend/toolkits/fetch.py): after the HTTP
GET (whose failure propagates), try the read_html strategy; any
failure inside it falls through to the LLM code-generation fallback
loop.  Returns the result paired with the number of oracle calls. -/
def extract_relevant_data (env : FetchEnv) (maxRetries : Nat := 10) :
    Except PyErr PyVal × Nat :=
  match env.httpError with
  | some e => (.error e, 0)
  | Option.none =>
    match extractStrategy1 env with
    | .ok (v, calls) => (.ok v, calls)
    | .error (_, calls) => fetchFallbackGo env (List.range maxRetries) calls

/-- Structural validation of a candidate plan (backend/agent.py lines
139-148): it must be a non-empty list whose every element is a dict
containing the keys tool_name, tool_input and step_name. -/
def planValid (v : PyVal) : Bool :=
  match v with
  | .list steps =>
    ¬ steps.isEmpty &&
    steps.all (fun st =>
      match st with
      | .dict kvs =>
        (dictLookup kvs "tool_name").isSome &&
        (dictLookup kvs "tool_input").isSome &&
        (dictLookup kvs "step_name").isSome
      | _ => false)
  | _ => false

/-- Outcome of one plan-generation attempt: the llm call (which
cannot raise) followed by regex extraction and json.loads is
abstracted as an optional parsed value (none models any extraction
or JSON failure); the structural validation is concrete. -/
def planAttemptRes (parsed : Option PyVal) : Except PyErr PyVal :=
  match parsed with
  | Option.none => .error (.valueError "LLM did not return a valid JSON list.")
  | some v =>
    if planValid v then .ok v
    else .error (.valueError "Plan failed structural validation.")

/-- The terminal error message of get_plan. -/
def planFailMsg : String :=
  "The AI failed to generate a valid execution plan after 3 attempts."

/-- Retry loop of get_plan (backend/agent.py lines 113-159): three
attempts; the except handler re-raises RuntimeError exactly when
attempt == 2; falling off the end of the function would return
Python None (unreachable when the loop runs its full range). -/
def getPlanGo (parsed : Nat → Option PyVal) : List Nat → Except PyErr PyVal
  | [] => .ok .none
  | a :: rest =>
    match planAttemptRes (parsed a) with
    | .ok v => .ok v
    | .error _ =>
      if a == 2 then .error (.runtimeError planFailMsg)
      else getPlanGo parsed rest

/-- get_plan (backend/agent.py): generate and validate a plan with at
most three attempts. -/
def get_plan (parsed : Nat → Option PyVal) : Except PyErr PyVal :=
  getPlanGo parsed (List.range 3)

/-- CPython keyword-argument binding for a call f(posArgs, kwArgs)
against a def whose parameters are params (name, hasDefault):
excess positional arguments, unexpected or duplicate keywords, and
missing required parameters each raise TypeError. -/
def bindKwArgs {α : Type} (funcName : String) (paramNames : List String)
    (bound : List (String × α)) : List (String × α) → Except PyErr (List (String × α))
  | [] => .ok bound
  | (k, v) :: rest =>
    if ¬ paramNames.contains k then
      .error (.typeError (funcName ++ "() got an unexpected keyword argument " ++ k))
    else if (bound.map Prod.fst).contains k then
      .error (.typeError (funcName ++ "() got multiple values for argument " ++ k))
    else bindKwArgs funcName paramNames (bound ++ [(k, v)]) rest

/-- CPython call binding: positional then keyword binding, then the
required-parameter check. -/
def bindPythonCall {α : Type} (funcName : String) (params : List (String × Bool))
    (posArgs : List α) (kwArgs : List (String × α)) : Except PyErr (List (String × α)) :=
  if params.length < posArgs.length then
    .error (.typeError (funcName ++ "() takes too many positional arguments"))
  else
    match bindKwArgs funcName (params.map Prod.fst)
        ((params.map Prod.fst).zip posArgs) kwArgs with
    | .error e => .error e
    | .ok bound =>
      if params.any (fun p => ¬ p.2 && ¬ ((bound.map Prod.fst).contains p.1)) then
        .error (.typeError (funcName ++ "() missing a required positional argument"))
      else .ok bound

/-- The parameter list of analyze_data as defined at
backend/toolkits/analyze.py line 66: (data_context, task,
max_retries=3). -/
def analyzeDataParams : List (String × Bool) :=
  [("data_context", false), ("task", false), ("max_retries", true)]

/-- The step-result context: an insertion-ordered mapping from step
name (itself a Python value taken from the plan) to step result. -/
abbrev Context : Type := List (PyVal × PyVal)

/-- Python dict assignment ctx[k] = v: overwrite in place keeping the
original key object and the insertion order, else append. -/
def ctxSet (ctx : Context) (k v : PyVal) : Context :=
  if (List.any ctx (fun p => pyBeq p.1 k)) then
    List.map (fun p => if pyBeq p.1 k then (p.1, v) else p) ctx
  else ctx ++ [(k, v)]

/-- The keys of a context, in insertion order. -/
def ctxKeys (ctx : Context) : List PyVal := List.map Prod.fst ctx

/-- Binding of the dispatch call at backend/agent.py line 332,
analyze_data(data_context, full_task_text, tool_input=tool_input),
against the signature of analyze_data: two positional arguments and
the keyword tool_input.  Arguments are embedded as context-or-value
sums; their contents never affect the binding. -/
def analyzeDispatchBind (dataContext : Context) (fullTaskText : String)
    (toolInput : PyVal) : Except PyErr (List (String × (Context ⊕ PyVal))) :=
  bindPythonCall "analyze_data" analyzeDataParams
    [Sum.inl dataContext, Sum.inr (.str fullTaskText)]
    [("tool_input", Sum.inr toolInput)]

/-- Whether an optional resolved path is truthy (not None and not the
empty string); mirrors the not actual_file_path tests. -/
def pathTruthy : Option String → Bool
  | Option.none => false
  | some s => s ≠ ""

/-- Whether an optional resolved path is truthy and names an existing
file; mirrors not actual_file_path or not os.path.exists(...). -/
def pathOk (pathExists : String → Bool) : Option String → Bool
  | Option.none => false
  | some s => s ≠ "" && pathExists s

/-- file_temp_paths.get(logical): exact lookup. -/
def ftpLookup (ftp : List (String × String)) (logical : String) : Option String :=
  (ftp.find? (fun p => p.1 == logical)).map Prod.snd

/-- Fallback strategy 1 (backend/agent.py lines 291-295): first file
whose name matches case-insensitively. -/
def findCaseInsensitive (ftp : List (String × String)) (logical : String) : Option String :=
  (ftp.find? (fun p => strLower p.1 == strLower logical)).map Prod.snd

/-- Fallback strategy 2 (backend/agent.py lines 298-305): first file
whose extensionless lowercase name contains, or is contained in, the
logical extensionless lowercase name. -/
def findPartialMatch (ftp : List (String × String)) (logical : String) : Option String :=
  let logicalName := strLower (splitext logical).1
  (ftp.find? (fun p =>
    let fileName := strLower (splitext p.1).1
    strContains fileName logicalName || strContains logicalName fileName)).map Prod.snd

/-- Fallback strategy 3 (backend/agent.py lines 308-314): when the
logical name has an extension and exactly one uploaded file has that
extension, that file. -/
def findExtUnique (ftp : List (String × String)) (logical : String) : Option String :=
  let logicalExt := strLower (splitext logical).2
  if logicalExt == "" then Option.none
  else
    match ftp.filter (fun p => strEndsWith (strLower p.1) logicalExt) with
    | [p] => ftpLookup ftp p.1
    | _ => Option.none

/-- Attachment resolution for a file_handler step (backend/agent.py
lines 286-323): exact lookup, then — only when that path is missing
or does not exist — the case-insensitive, partial-name and
unique-extension fallbacks (the latter two only when no candidate is
set yet), then the single-uploaded-file fallback, and finally either
the resolved existing path or FileNotFoundError. -/
def resolveFilePath (pathExists : String → Bool) (ftp : List (String × String))
    (logical : String) : Except PyErr String :=
  let a0 := ftpLookup ftp logical
  let a3 :=
    if ¬ pathOk pathExists a0 then
      let a1 := match findCaseInsensitive ftp logical with
                | some v => some v
                | Option.none => a0
      let a2 := if ¬ pathTruthy a1 then
                  match findPartialMatch ftp logical with
                  | some v => some v
                  | Option.none => a1
                else a1
      if ¬ pathTruthy a2 then
        match findExtUnique ftp logical with
        | some v => some v
        | Option.none => a2
      else a2
    else a0
  let aFinal :=
    if ¬ pathOk pathExists a3 && ftp.length == 1 then
      some (ftp.headD ("", "")).2
    else a3
  match aFinal with
  | some p =>
    if p ≠ "" && pathExists p then .ok p
    else .error (.fileNotFoundError ("Could not resolve file " ++ logical))
  | Option.none => .error (.fileNotFoundError ("Could not resolve file " ++ logical))

/-- Abstracted collaborators of one handle_task call
(backend/agent.py): the task text, uploaded attachments (name and
content bytes), the per-global-attempt per-plan-attempt parsed plan
candidates, the observable behavior of the four tools (each of which
is modelled in depth separately), temp-file materialization, file
existence, and DataFrame markdown rendering. -/
structure AgentEnv where
  taskText : String
  attachments : List (String × List Nat)
  planParsed : Nat → Nat → Option PyVal
  retrieveTool : String → Except PyErr PyVal
  fetchTool : PyVal → Option PyVal → Except PyErr PyVal
  fileTool : PyVal → Option PyVal → String → Except PyErr PyVal
  analyzeTool : Context → Option PyVal → Except PyErr PyVal
  tempPath : Nat → String → String
  pathExists : String → Bool
  dfMarkdown : DataFrame → String

/-- The temp-file mapping built for one global attempt: each
attachment name mapped to its materialized path. -/
def ftpOf (env : AgentEnv) (attempt : Nat) : List (String × String) :=
  env.attachments.map (fun p => (p.1, env.tempPath attempt p.1))

/-- The report dict handle_task builds at the start of every global
attempt (backend/agent.py lines 172-178). -/
structure AgentResults where
  task : String
  reasoning : String
  dataframe_preview : String
  final_answers : Option PyVal
  error : Option String
  deriving Repr

/-- The freshly initialized report of one global attempt. -/
def baseResults (env : AgentEnv) : AgentResults :=
  { task := pyStrip env.taskText
    reasoning := "Planner-based execution with autonomous tools. See logs for details."
    dataframe_preview := ""
    final_answers := Option.none
    error := Option.none }

/-- Rendering of a step name inside the preview header f-string
(step names are strings in well-formed plans; other values have
their Python string form abstracted away). -/
def pyvalText : PyVal → String
  | .str s => s
  | _ => ""

/-- Dispatch of one plan step (backend/agent.py lines 244-335):
read tool_name and tool_input, check the input shape, and invoke the
matching tool; the analyze branch performs the keyword-argument
binding of line 332 before any tool behavior could run; an unknown
tool raises ValueError, and a non-dict step raises AttributeError
when .get is accessed. -/
def runStep (env : AgentEnv) (ftp : List (String × String))
    (ctx : Context) (step : PyVal) : Except PyErr PyVal :=
  match step with
  | .dict kvs =>
    let toolName := dictLookup kvs "tool_name"
    let toolInput := dictLookup kvs "tool_input"
    if toolName == some (.str "duckdb_runner.retrieve_data_as_df") then
      match toolInput with
      | some (.str s) => env.retrieveTool s
      | _ => .error (.typeError "Expected a string for duckdb_runner input")
    else if toolName == some (.str "fetch.extract_relevant_data") then
      match toolInput with
      | some (.dict d) =>
        let url := dictLookup d "url"
        let taskDesc := dictLookup d "task_description"
        if ¬ optTruthy url then .error (.valueError "Plan for fetch tool is missing a URL.")
        else env.fetchTool (url.getD .none) taskDesc
      | _ => .error (.typeError "Expected a dictionary for fetch tool input")
    else if toolName == some (.str "file_handler.handle_file_task") then
      let parsedInput : Except PyErr (Option PyVal × Option PyVal × Option PyVal) :=
        match toolInput with
        | some (.str s) =>
          .ok (some (.str s), some (.str (pyStrip env.taskText)),
               some (.str ((ftp.headD ("uploaded_file", "")).1)))
        | some (.dict d) =>
          .ok (dictLookup d "task_description", dictLookup d "full_task",
               dictLookup d "file_path")
        | _ => .error (.typeError "Expected a dictionary or string for file_handler tool input")
      match parsedInput with
      | .error e => .error e
      | .ok (td, ft, lf) =>
        if ¬ optTruthy td then
          .error (.valueError "Plan for file_handler.handle_file_task tool is missing task_description.")
        else
          match lf with
          | some (.str logical) =>
            match resolveFilePath env.pathExists ftp logical with
            | .error e => .error e
            | .ok actualPath => env.fileTool (td.getD .none) ft actualPath
          | _ =>
            .error (.typeError "unsupported file_path value in the resolution heuristics")
    else if toolName == some (.str "analyze.analyze_data") then
      match analyzeDispatchBind ctx (pyStrip env.taskText) (toolInput.getD .none) with
      | .error e => .error e
      | .ok _ => env.analyzeTool ctx toolInput
    else .error (.valueError "Unknown tool in plan")
  | _ => .error (.attributeError "step object has no attribute get")

/-- step.get("step_name", f"step_i+1") for the i-th step. -/
def stepNameVal (step : PyVal) (i : Nat) : PyVal :=
  match step with
  | .dict kvs => (dictLookup kvs "step_name").getD (.str ("step_" ++ toString (i + 1)))
  | _ => .str ("step_" ++ toString (i + 1))

/-- The step names of a plan suffix starting at index i. -/
def stepNamesFrom : List PyVal → Nat → List PyVal
  | [], _ => []
  | s :: rest, i => stepNameVal s i :: stepNamesFrom rest (i + 1)

/-- The step loop of one global attempt (backend/agent.py lines
243-342): execute each step in plan order; a successful step result
is stored in the context under the step name and recorded in the
report (DataFrames extend the preview text, anything else replaces
final_answers); the first exception aborts the loop.  Returns the
context reached, the report reached, and the exception if any. -/
def executeSteps (env : AgentEnv) (ftp : List (String × String)) :
    List PyVal → Nat → Context → AgentResults → Context × AgentResults × Option PyErr
  | [], _, ctx, res => (ctx, res, Option.none)
  | step :: rest, i, ctx, res =>
    match runStep env ftp ctx step with
    | .error e => (ctx, res, some e)
    | .ok v =>
      let nameV := stepNameVal step i
      let ctx2 := ctxSet ctx nameV v
      let res2 :=
        match v with
        | .df d =>
          { res with dataframe_preview :=
              res.dataframe_preview ++ "\n--- Preview for Step: " ++ pyvalText nameV
                ++ " ---\n" ++ env.dfMarkdown d }
        | v2 => { res with final_answers := some v2 }
      executeSteps env ftp rest (i + 1) ctx2 res2

/-- One global attempt of handle_task: build the file context and ask
get_plan for a fresh plan from the original task text (any plan
failure raises out of the attempt), materialize the attachments to
fresh temp paths, then run the step loop starting from an empty
step-result context and a freshly initialized report.  Returns the
context reached, the report reached, and the exception if any. -/
def agentAttemptFull (env : AgentEnv) (attempt : Nat) :
    Context × AgentResults × Option PyErr :=
  match get_plan (env.planParsed attempt) with
  | .error e => ([], baseResults env, some e)
  | .ok planVal =>
    match planVal with
    | .list steps => executeSteps env (ftpOf env attempt) steps 0 [] (baseResults env)
    | _ => ([], baseResults env, some (.typeError "plan object is not iterable"))

/-- The report and exception of one global attempt. -/
def agentAttempt (env : AgentEnv) (attempt : Nat) : AgentResults × Option PyErr :=
  ((agentAttemptFull env attempt).2.1, (agentAttemptFull env attempt).2.2)

/-- The step-result context reached during one global attempt. -/
def attemptContext (env : AgentEnv) (attempt : Nat) : Context :=
  (agentAttemptFull env attempt).1

/-- The step names of the plan generated in one global attempt
(empty when plan generation failed). -/
def attemptPlanNames (env : AgentEnv) (attempt : Nat) : List PyVal :=
  match get_plan (env.planParsed attempt) with
  | .ok (.list steps) => stepNamesFrom steps 0
  | _ => []

/-- The global retry loop of handle_task (backend/agent.py lines
169-355): a successful attempt returns its report; a failed attempt
stores str(e) in the report's error field and returns it when the
budget is exhausted, otherwise retries from scratch.  Falling past
the loop (possible only for a zero budget) reaches the final return
of an unassigned local, a NameError. -/
def handleTaskGo (env : AgentEnv) (maxGlobalRetries : Nat) :
    List Nat → Except PyErr AgentResults
  | [] => .error (.nameError "local variable results referenced before assignment")
  | a :: rest =>
    match agentAttempt env a with
    | (res, Option.none) => .ok res
    | (res, some e) =>
      if a + 1 == maxGlobalRetries then
        .ok { res with error := some (pyErrStr e) }
      else handleTaskGo env maxGlobalRetries rest

/-- handle_task (backend/agent.py line 162): the task-submission
entry point, with the default global retry budget of 3. -/
def handle_task (env : AgentEnv) (maxGlobalRetries : Nat := 3) :
    Except PyErr AgentResults :=
  handleTaskGo env maxGlobalRetries (List.range maxGlobalRetries)

/-- The /api success response (backend/main.py lines 174-178): the
report always carries final_answers, so that field (None when unset)
is returned. -/
def apiResultOf (res : AgentResults) : PyVal :=
  (res.final_answers).getD .none

/-- api_analyze (backend/main.py lines 95-184): the whole body runs
inside try/except Exception.  The form parsing and task-file
selection stage is abstracted as an outcome (an exception, no task
file found, or a task text with attachments); a found task is passed
to handle_task and the final answers are returned; the handler turns
any exception into a response object with an error field. -/
def api_analyze (pre : Except PyErr (Option (String × List (String × List Nat))))
    (envOf : String → List (String × List Nat) → AgentEnv) : PyVal :=
  let body : Except PyErr PyVal :=
    match pre with
    | .error e => .error e
    | .ok Option.none =>
      .ok (.dict [("error", .str "No task file provided. Please include a .txt file with your question or a file with question in the name.")])
    | .ok (some (taskText, attachments)) =>
      match handle_task (envOf taskText attachments) with
      | .error e => .error e
      | .ok res => .ok (apiResultOf res)
  match body with
  | .ok v => v
  | .error e => .dict [("error", .str (pyErrStr e))]

/-- The retry loop inspects only the attempts of the index list it is
given. -/
theorem selfCorrectLoop_congr (f g : Nat → Except PyErr PyVal) (maxRetries : Nat)
    (p ex : String) (l : List Nat) (h : ∀ i ∈ l, f i = g i) :
    selfCorrectLoop f maxRetries p ex l = selfCorrectLoop g maxRetries p ex l := by
  induction l with
  | nil => rfl
  | cons a rest ih =>
    simp only [selfCorrectLoop]
    rw [h a (List.mem_cons_self a rest)]
    cases g a with
    | ok v => rfl
    | error e =>
      by_cases hm : (a + 1 == maxRetries) = true
      · simp [hm]
      · simp only [Bool.not_eq_true] at hm
        simp [hm, ih (fun i hi => h i (List.mem_cons_of_mem a hi))]

/-- When every listed attempt fails, the retry loop ends in a
RuntimeError. -/
theorem selfCorrectLoop_allFail (f : Nat → Except PyErr PyVal) (maxRetries : Nat)
    (p ex : String) (l : List Nat) (h : ∀ i ∈ l, ∃ e, f i = .error e) :
    ∃ m, selfCorrectLoop f maxRetries p ex l = .error (.runtimeError m) := by
  induction l with
  | nil => exact ⟨ex, rfl⟩
  | cons a rest ih =>
    obtain ⟨e, he⟩ := h a (List.mem_cons_self a rest)
    simp only [selfCorrectLoop, he]
    by_cases hm : (a + 1 == maxRetries) = true
    · exact ⟨p ++ pyErrStr e, by simp [hm]⟩
    · simp only [Bool.not_eq_true] at hm
      obtain ⟨m, hmm⟩ := ih (fun i hi => h i (List.mem_cons_of_mem a hi))
      exact ⟨m, by simp [hm, hmm]⟩

/-- A successful retry loop returns the value of one of the listed
attempts. -/
theorem selfCorrectLoop_ok (f : Nat → Except PyErr PyVal) (maxRetries : Nat)
    (p ex : String) (l : List Nat) (v : PyVal)
    (h : selfCorrectLoop f maxRetries p ex l = .ok v) : ∃ i ∈ l, f i = .ok v := by
  induction l with
  | nil => simp [selfCorrectLoop] at h
  | cons a rest ih =>
    simp only [selfCorrectLoop] at h
    cases hf : f a with
    | ok w =>
      rw [hf] at h
      exact ⟨a, List.mem_cons_self a rest, by rw [hf]; exact h⟩
    | error e =>
      rw [hf] at h
      by_cases hm : (a + 1 == maxRetries) = true
      · simp [hm] at h
      · simp only [Bool.not_eq_true] at hm
        simp only [hm, Bool.false_eq_true, if_false] at h
        obtain ⟨i, hi, hfi⟩ := ih h
        exact ⟨i, List.mem_cons_of_mem a hi, hfi⟩

/-- A character list is a prefix of itself followed by anything. -/
theorem isPrefixOfAppendSelf (a b : List Char) : a.isPrefixOf (a ++ b) = true := by
  induction a with
  | nil => simp [List.isPrefixOf]
  | cons c cs ih => simp [List.isPrefixOf, ih]

/-- C7: the oracle wrapper llm is total and exception-free: it is a
function into String (no exception channel); a successful provider
round trip returns the stripped text, and any exception raised during
the provider call is converted to the sentinel string "LLM error: "
followed by str(e), so callers can detect oracle failure only by
inspecting the returned content. -/
theorem C7_llm_total_and_sentinel :
    (∀ t : String, llm (.ok t) = pyStrip t) ∧
    (∀ e : String, llm (.error e) = "LLM error: " ++ e ∧
      strStartsWith (llm (.error e)) "LLM error:" = true) := by
  refine ⟨fun t => rfl, fun e => ⟨rfl, ?_⟩⟩
  show strStartsWith ("LLM error: " ++ e) "LLM error:" = true
  have hdata : ("LLM error: " ++ e).data = ("LLM error:").data ++ (' ' :: e.data) := by
    have : ("LLM error: " ++ e).data = ("LLM error: ").data ++ e.data := String.data_append _ _
    rw [this]
    rfl
  unfold strStartsWith
  rw [hdata]
  exact isPrefixOfAppendSelf _ _

/-- The TypeError message of the bad dispatch call. -/
def analyzeKwErrMsg : String := "analyze_data() got an unexpected keyword argument tool_input"

/-- C2: the dispatch of an analyze.analyze_data step passes the
keyword argument tool_input, which the signature of analyze_data
(data_context, task, max_retries) does not declare, so the call
binding raises TypeError for every input; consequently, when the
step loop reaches such a step it aborts the attempt with that
TypeError, the context is left unchanged and no result is ever
stored under the step's name. -/
theorem C2_analyze_dispatch_type_error :
    (∀ (dc : Context) (ft : String) (ti : PyVal),
      analyzeDispatchBind dc ft ti = .error (.typeError analyzeKwErrMsg)) ∧
    (∀ (env : AgentEnv) (ftp : List (String × String)) (ctx : Context)
      (kvs : List (String × PyVal)) (rest : List PyVal) (i : Nat) (res : AgentResults),
      dictLookup kvs "tool_name" = some (.str "analyze.analyze_data") →
      executeSteps env ftp (.dict kvs :: rest) i ctx res =
        (ctx, res, some (.typeError analyzeKwErrMsg))) := by
  constructor
  · intro dc ft ti; rfl
  · intro env ftp ctx kvs rest i res h
    simp only [executeSteps, runStep, h]
    rfl

/-- Unfolding of a validated plan: the structural checks of get_plan
guarantee a non-empty list of dicts carrying the three plan keys. -/
theorem planValid_spec (v : PyVal) (h : planValid v = true) :
    ∃ steps : List PyVal, v = .list steps ∧ steps ≠ [] ∧
      ∀ st ∈ steps, ∃ kvs, st = .dict kvs ∧
        (dictLookup kvs "tool_name").isSome = true ∧
        (dictLookup kvs "tool_input").isSome = true ∧
        (dictLookup kvs "step_name").isSome = true := by
  cases v with
  | list steps =>
    refine ⟨steps, rfl, ?_, ?_⟩
    · intro hnil
      rw [hnil] at h
      simp [planValid] at h
    · intro st hst
      simp only [planValid, Bool.and_eq_true, List.all_eq_true] at h
      have := h.2 st hst
      cases st with
      | dict kvs =>
        simp only [Bool.and_eq_true] at this
        exact ⟨kvs, rfl, this.1.1, this.1.2, this.2⟩
      | none => simp at this
      | str s => simp at this
      | int n => simp at this
      | npscalar n => simp at this
      | bytes b => simp at this
      | pil b => simp at this
      | df d => simp at this
      | bool b => simp at this
      | list xs => simp at this
  | none => simp [planValid] at h
  | str s => simp [planValid] at h
  | int n => simp [planValid] at h
  | npscalar n => simp [planValid] at h
  | bytes b => simp [planValid] at h
  | pil b => simp [planValid] at h
  | df d => simp [planValid] at h
  | bool b => simp [planValid] at h
  | dict kvs => simp [planValid] at h

/-- A successful plan attempt returns a structurally valid plan. -/
theorem planAttemptRes_ok (p : Option PyVal) (v : PyVal)
    (h : planAttemptRes p = .ok v) : planValid v = true := by
  cases p with
  | none => simp [planAttemptRes] at h
  | some w =>
    simp only [planAttemptRes] at h
    by_cases hv : planValid w = true
    · simp only [hv, if_true] at h
      cases h
      exact hv
    · simp [hv] at h

/-- C8: every plan returned by get_plan is a non-empty list whose
every element is a dict containing the keys tool_name, tool_input
and step_name; and when no attempt out of the three produces such a
plan, get_plan raises the terminal RuntimeError. -/
theorem C8_plan_wellformed_or_runtime_error :
    (∀ (parsed : Nat → Option PyVal) (v : PyVal), get_plan parsed = .ok v →
      ∃ steps : List PyVal, v = .list steps ∧ steps ≠ [] ∧
        ∀ st ∈ steps, ∃ kvs, st = .dict kvs ∧
          (dictLookup kvs "tool_name").isSome = true ∧
          (dictLookup kvs "tool_input").isSome = true ∧
          (dictLookup kvs "step_name").isSome = true) ∧
    (∀ parsed : Nat → Option PyVal,
      (∀ i, i < 3 → ∃ e, planAttemptRes (parsed i) = .error e) →
      get_plan parsed = .error (.runtimeError planFailMsg)) := by
  constructor
  · intro parsed v h
    have hrange : List.range 3 = [0, 1, 2] := rfl
    simp only [get_plan, hrange, getPlanGo] at h
    cases h0 : planAttemptRes (parsed 0) with
    | ok w =>
      rw [h0] at h
      cases h
      exact planValid_spec v (planAttemptRes_ok _ _ h0)
    | error e0 =>
      rw [h0] at h
      simp only [Nat.reduceBEq, Bool.false_eq_true, if_false] at h
      cases h1 : planAttemptRes (parsed 1) with
      | ok w =>
        rw [h1] at h
        cases h
        exact planValid_spec v (planAttemptRes_ok _ _ h1)
      | error e1 =>
        rw [h1] at h
        simp only [Nat.reduceBEq, Bool.false_eq_true, if_false] at h
        cases h2 : planAttemptRes (parsed 2) with
        | ok w =>
          rw [h2] at h
          cases h
          exact planValid_spec v (planAttemptRes_ok _ _ h2)
        | error e2 =>
          rw [h2] at h
          simp at h
  · intro parsed hfail
    obtain ⟨e0, h0⟩ := hfail 0 (by norm_num)
    obtain ⟨e1, h1⟩ := hfail 1 (by norm_num)
    obtain ⟨e2, h2⟩ := hfail 2 (by norm_num)
    have hrange : List.range 3 = [0, 1, 2] := rfl
    simp [get_plan, hrange, getPlanGo, h0, h1, h2]

/-- Unwrapping a numpy scalar never creates a raw binary buffer. -/
theorem isRawBinary_itemVal (x : PyVal) : isRawBinary (itemVal x) = isRawBinary x := by
  cases x <;> rfl

/-- The per-entry normalization of analyze_data leaves no raw binary
value in a dict entry. -/
theorem isRawBinary_norm (p : String × PyVal) :
    isRawBinary (if hasSave p.2 || isBytesLike p.2 then (p.1, to_base64_image p.2) else p).2
      = false := by
  obtain ⟨k, x⟩ := p
  cases x <;> rfl

/-- A successful analyze_data post-processing step returns no raw
binary buffer, neither at top level nor as a dict value. -/
theorem analyzePost_ok_no_raw (w v : PyVal) (h : analyzePost w = .ok v) :
    isRawBinary v = false ∧
    (∀ kvs, v = .dict kvs → ∀ p ∈ kvs, isRawBinary p.2 = false) := by
  cases w with
  | none =>
    rw [show analyzePost PyVal.none =
      .error (.valueError "Analysis code did not assign a value to the result variable.")
      from rfl] at h
    exact Except.noConfusion h
  | str s =>
    rw [show analyzePost (.str s) = .ok (.str s) from rfl] at h
    cases h
    exact ⟨rfl, fun kvs0 hk => PyVal.noConfusion hk⟩
  | int n =>
    rw [show analyzePost (.int n) = .ok (.int n) from rfl] at h
    cases h
    exact ⟨rfl, fun kvs0 hk => PyVal.noConfusion hk⟩
  | npscalar n =>
    rw [show analyzePost (.npscalar n) = .ok (.int n) from rfl] at h
    cases h
    exact ⟨rfl, fun kvs0 hk => PyVal.noConfusion hk⟩
  | bytes b =>
    rw [show analyzePost (.bytes b) =
      .ok (.str ("data:image/png;base64," ++ b64encode b)) from rfl] at h
    cases h
    exact ⟨rfl, fun kvs0 hk => PyVal.noConfusion hk⟩
  | pil b =>
    rw [show analyzePost (.pil b) =
      .ok (.str ("data:image/png;base64," ++ b64encode b)) from rfl] at h
    cases h
    exact ⟨rfl, fun kvs0 hk => PyVal.noConfusion hk⟩
  | df d =>
    rw [show analyzePost (.df d) = .ok (.df d) from rfl] at h
    cases h
    exact ⟨rfl, fun kvs0 hk => PyVal.noConfusion hk⟩
  | bool b =>
    rw [show analyzePost (.bool b) = .ok (.bool b) from rfl] at h
    cases h
    exact ⟨rfl, fun kvs0 hk => PyVal.noConfusion hk⟩
  | list xs =>
    rw [show analyzePost (.list xs) = .ok (.list (xs.map itemVal)) from rfl] at h
    cases h
    exact ⟨rfl, fun kvs0 hk => PyVal.noConfusion hk⟩
  | dict kvs =>
    rw [show analyzePost (.dict kvs) =
      .ok (.dict ((kvs.map (fun p =>
        if hasSave p.2 || isBytesLike p.2 then (p.1, to_base64_image p.2) else p)).map
          (fun p => (p.1, itemVal p.2)))) from rfl] at h
    cases h
    refine ⟨rfl, ?_⟩
    intro kvs0 hk p hp
    cases hk
    obtain ⟨q, hq, rfl⟩ := List.mem_map.mp hp
    rw [show ((q.1, itemVal q.2) : String × PyVal).2 = itemVal q.2 from rfl,
      isRawBinary_itemVal]
    obtain ⟨r, hr, rfl⟩ := List.mem_map.mp hq
    exact isRawBinary_norm r

/-- C10 (amended): binary results produced by analyze_data (PIL
images or bytes/bytearray values, at top level or inside a dict
result) are always normalized to data:image/png;base64 URI strings
before being returned; handle_file_task, however, performs no such
normalization, and a bytes result whose task description matches
neither the table nor the text keyword lists passes through its
validation unchanged. -/
theorem C10_amended_binary_normalization :
    (∀ (execOutcome : Nat → Except PyErr PyVal) (maxRetries : Nat) (v : PyVal),
      analyze_data execOutcome maxRetries = .ok v →
      isRawBinary v = false ∧
        (∀ kvs, v = .dict kvs → ∀ p ∈ kvs, isRawBinary p.2 = false)) ∧
    (∀ b : List Nat,
      analyzePost (.bytes b) = .ok (.str ("data:image/png;base64," ++ b64encode b))) ∧
    (∀ b : List Nat,
      analyzePost (.pil b) = .ok (.str ("data:image/png;base64," ++ b64encode b))) ∧
    (∀ (td : String) (b : List Nat),
      tableKeywords.any (fun kw => strContains (strLower td) kw) = false →
      textKeywords.any (fun kw => strContains (strLower td) kw) = false →
      filePost td (.bytes b) = .ok (.bytes b)) := by
  refine ⟨?_, fun b => rfl, fun b => rfl, ?_⟩
  · intro o maxRetries v h
    obtain ⟨i, _, hi⟩ := selfCorrectLoop_ok _ _ _ _ _ _ h
    unfold analyzeAttemptRes at hi
    cases ho : o i with
    | error e =>
      rw [ho] at hi
      exact Except.noConfusion hi
    | ok w =>
      rw [ho] at hi
      exact analyzePost_ok_no_raw w v hi
  · intro td b h1 h2
    simp only [filePost, h1, h2]
    rfl

/-- C10 counterexample: a non-image handle_file_task invocation whose
generated script leaves raw bytes in the result slot returns those
bytes unchanged to the caller — not a data URI string — so the claim
that binary results are normalized regardless of the producing tool
fails on handle_file_task. -/
theorem C10_counterexample_file_handler_raw_bytes :
    handle_file_task "/tmp/d.csv" "vision" "get raw bytes of the chart"
        (fun _ => .ok (.bytes [1, 2, 3])) 3 = .ok (.bytes [1, 2, 3]) ∧
    isDataUriStr (.bytes [1, 2, 3]) = false ∧
    isRawBinary (.bytes [1, 2, 3]) = true := by
  exact ⟨rfl, rfl, rfl⟩

/-- C10 witness: the amended theorem applied to a concrete bytes
result of analyze_data and a concrete keyword-free file task. -/
theorem C10_amended_witness :
    isRawBinary (.str "data:image/png;base64,AQID") = false ∧
    filePost "plot it" (.bytes [1]) = .ok (.bytes [1]) := by
  obtain ⟨hA, _, _, hD⟩ := C10_amended_binary_normalization
  exact ⟨(hA (fun _ => .ok (.bytes [1, 2, 3])) 3 (.str "data:image/png;base64,AQID") rfl).1,
         hD "plot it" [1] rfl rfl⟩

/-- A successful fallback scraping attempt yields a DataFrame. -/
theorem fetchAttemptRes_ok (env : FetchEnv) (a : Nat) (v : PyVal)
    (h : fetchAttemptRes env a = .ok v) : pyIsDF v = true := by
  cases he : env.fallbackExec a with
  | error e => simp [fetchAttemptRes, he] at h
  | ok w =>
    cases w with
    | df d =>
      simp only [fetchAttemptRes, he] at h
      by_cases h1 : d.isEmptyDf = true
      · rw [if_neg (not_not_intro h1)] at h
        exact Except.noConfusion h
      · rw [if_pos h1] at h
        by_cases h2 : (decide (d.cols > 0) && decide (d.rows > 0)) = true
        · rw [if_pos h2] at h
          cases h
          rfl
        · rw [if_neg h2] at h
          exact Except.noConfusion h
    | none => simp [fetchAttemptRes, he] at h
    | str s => simp [fetchAttemptRes, he] at h
    | int n => simp [fetchAttemptRes, he] at h
    | npscalar n => simp [fetchAttemptRes, he] at h
    | bytes b => simp [fetchAttemptRes, he] at h
    | pil b => simp [fetchAttemptRes, he] at h
    | bool b => simp [fetchAttemptRes, he] at h
    | list xs => simp [fetchAttemptRes, he] at h
    | dict kvs => simp [fetchAttemptRes, he] at h

/-- A successful scrape-fallback loop yields a DataFrame. -/
theorem fetchFallbackGo_ok (env : FetchEnv) (l : List Nat) (c : Nat) (v : PyVal)
    (h : (fetchFallbackGo env l c).1 = .ok v) : pyIsDF v = true := by
  induction l generalizing c with
  | nil => simp [fetchFallbackGo] at h
  | cons a rest ih =>
    simp only [fetchFallbackGo] at h
    cases hf : fetchAttemptRes env a with
    | ok w =>
      rw [hf] at h
      simp only [Except.ok.injEq] at h
      subst h
      exact fetchAttemptRes_ok env a w hf
    | error e =>
      rw [hf] at h
      exact ih (c + 1) h

/-- A successful read_html strategy yields a DataFrame. -/
theorem extractStrategy1_ok (env : FetchEnv) (w : PyVal) (n : Nat)
    (h : extractStrategy1 env = .ok (w, n)) : pyIsDF w = true := by
  cases hr : env.readHtml with
  | error e => simp [extractStrategy1, hr] at h
  | ok tables =>
    simp only [extractStrategy1, hr] at h
    cases tables with
    | nil => simp at h
    | cons t1 rest =>
      cases rest with
      | nil =>
        simp only [Except.ok.injEq, Prod.mk.injEq] at h
        rw [← h.1]
        rfl
      | cons t2 ts =>
        cases hf : firstIntOf? env.selectionResponse with
        | none => simp [hf] at h
        | some i =>
          simp only [hf] at h
          split at h
          · simp only [Except.ok.injEq, Prod.mk.injEq] at h
            rw [← h.1]
            rfl
          · exact Except.noConfusion h

/-- C4: the tabular retrieval tools never return non-tabular success
values: every non-exceptional return of retrieve_data_as_df and of
extract_relevant_data is a pandas DataFrame. -/
theorem C4_tabular_success_values :
    (∀ (execOutcome : Nat → Except PyErr PyVal) (maxRetries : Nat) (v : PyVal),
      retrieve_data_as_df execOutcome maxRetries = .ok v → pyIsDF v = true) ∧
    (∀ (env : FetchEnv) (maxRetries : Nat) (v : PyVal),
      (extract_relevant_data env maxRetries).1 = .ok v → pyIsDF v = true) := by
  constructor
  · intro o maxRetries v h
    obtain ⟨i, _, hi⟩ := selfCorrectLoop_ok _ _ _ _ _ _ h
    cases ho : o i with
    | error e => simp [retrieveAttemptRes, ho] at hi
    | ok w =>
      simp only [retrieveAttemptRes, ho] at hi
      by_cases hdf : pyIsDF w = true
      · rw [if_pos hdf] at hi
        cases hi
        exact hdf
      · rw [if_neg hdf] at hi
        exact Except.noConfusion hi
  · intro env maxRetries v h
    cases hh : env.httpError with
    | some e => simp [extract_relevant_data, hh] at h
    | none =>
      simp only [extract_relevant_data, hh] at h
      cases hs : extractStrategy1 env with
      | ok pr =>
        obtain ⟨w, n⟩ := pr
        rw [hs] at h
        simp only [Except.ok.injEq] at h
        subst h
        exact extractStrategy1_ok env w n hs
      | error pr =>
        obtain ⟨e, n⟩ := pr
        rw [hs] at h
        exact fetchFallbackGo_ok env _ _ v h

/-- A fetch environment whose page parses to a single table. -/
def cSingleEnv : FetchEnv :=
  { httpError := Option.none
    readHtml := .ok [⟨3, 2, 0⟩]
    selectionResponse := ""
    fallbackExec := fun _ => .error (.valueError "boom") }

/-- C4 witness: the theorem applied to a retrieval whose first script
attempt returns a table and to a single-table extract. -/
theorem C4_tabular_witness :
    pyIsDF (.df ⟨1, 1, 0⟩) = true ∧ pyIsDF (.df ⟨3, 2, 0⟩) = true := by
  obtain ⟨h1, h2⟩ := C4_tabular_success_values
  exact ⟨h1 (fun _ => .ok (.df ⟨1, 1, 0⟩)) 3 (.df ⟨1, 1, 0⟩) rfl,
         h2 cSingleEnv 10 (.df ⟨3, 2, 0⟩) rfl⟩

/-- C5: the retrieval fast path of extract_relevant_data: a page with
exactly one parsed table returns that table directly with zero
oracle calls and no code generation; a page with several tables uses
exactly one oracle call to select the returned index; only a page
with zero tables (or a failing parse or selection) falls through to
the code-generation fallback loop. -/
theorem C5_fast_path :
    (∀ (env : FetchEnv) (t : DataFrame) (maxRetries : Nat),
      env.httpError = Option.none → env.readHtml = .ok [t] →
      extract_relevant_data env maxRetries = (.ok (.df t), 0)) ∧
    (∀ (env : FetchEnv) (tables : List DataFrame) (i : Nat) (maxRetries : Nat)
      (hlen : 2 ≤ tables.length) (hi : i < tables.length),
      env.httpError = Option.none → env.readHtml = .ok tables →
      firstIntOf? env.selectionResponse = some i →
      extract_relevant_data env maxRetries = (.ok (.df (tables.get ⟨i, hi⟩)), 1)) ∧
    (∀ (env : FetchEnv) (maxRetries : Nat),
      env.httpError = Option.none → env.readHtml = .ok [] →
      extract_relevant_data env maxRetries =
        fetchFallbackGo env (List.range maxRetries) 0) := by
  refine ⟨?_, ?_, ?_⟩
  · intro env t maxRetries h1 h2
    simp [extract_relevant_data, extractStrategy1, h1, h2]
  · intro env tables i maxRetries hlen hi h1 h2 hsel
    cases tables with
    | nil => simp at hlen
    | cons t1 rest =>
      cases rest with
      | nil => simp at hlen
      | cons t2 ts =>
        have hi2 : i < ts.length + 1 + 1 := by simpa using hi
        simp [extract_relevant_data, extractStrategy1, h1, h2, hsel, hi2]
  · intro env maxRetries h1 h2
    simp [extract_relevant_data, extractStrategy1, h1, h2]

/-- A fetch environment whose page parses to two tables and whose
selection oracle answers with index 1. -/
def cMultiEnv : FetchEnv :=
  { httpError := Option.none
    readHtml := .ok [⟨3, 2, 0⟩, ⟨5, 4, 1⟩]
    selectionResponse := "Table 1 looks best"
    fallbackExec := fun _ => .error (.valueError "boom") }

/-- A fetch environment whose page parses to zero tables. -/
def cZeroEnv : FetchEnv :=
  { httpError := Option.none
    readHtml := .ok []
    selectionResponse := ""
    fallbackExec := fun _ => .error (.valueError "boom") }

/-- C5 witness: the fast-path theorem applied to one-table, two-table
and zero-table environments. -/
theorem C5_fast_path_witness :
    extract_relevant_data cSingleEnv 10 = (.ok (.df ⟨3, 2, 0⟩), 0) ∧
    extract_relevant_data cMultiEnv 10 = (.ok (.df ⟨5, 4, 1⟩), 1) ∧
    extract_relevant_data cZeroEnv 2 =
      fetchFallbackGo cZeroEnv (List.range 2) 0 := by
  obtain ⟨hone, hmany, hzero⟩ := C5_fast_path
  refine ⟨hone cSingleEnv ⟨3, 2, 0⟩ 10 rfl rfl, ?_, hzero cZeroEnv 2 rfl rfl⟩
  exact hmany cMultiEnv [⟨3, 2, 0⟩, ⟨5, 4, 1⟩] 1 10 (by norm_num) (by norm_num) rfl rfl rfl

/-- The scrape-fallback loop inspects only the listed attempts. -/
theorem fetchFallbackGo_congr (env : FetchEnv) (o1 o2 : Nat → Except PyErr PyVal)
    (l : List Nat) (c : Nat) (h : ∀ i ∈ l, o1 i = o2 i) :
    fetchFallbackGo { env with fallbackExec := o1 } l c =
      fetchFallbackGo { env with fallbackExec := o2 } l c := by
  induction l generalizing c with
  | nil => rfl
  | cons a rest ih =>
    simp only [fetchFallbackGo]
    have ha : fetchAttemptRes { env with fallbackExec := o1 } a =
        fetchAttemptRes { env with fallbackExec := o2 } a := by
      unfold fetchAttemptRes
      simp only [h a (List.mem_cons_self a rest)]
    rw [ha]
    cases fetchAttemptRes { env with fallbackExec := o2 } a with
    | ok v => rfl
    | error e => exact ih (c + 1) (fun i hi => h i (List.mem_cons_of_mem a hi))

/-- When every listed fallback attempt fails, the loop raises the
terminal RuntimeError after consuming one oracle call per attempt. -/
theorem fetchFallbackGo_allFail (env : FetchEnv) (l : List Nat) (c : Nat)
    (h : ∀ i ∈ l, ∃ e, fetchAttemptRes env i = .error e) :
    fetchFallbackGo env l c =
      (.error (.runtimeError "All scraping strategies failed."), c + l.length) := by
  induction l generalizing c with
  | nil => rfl
  | cons a rest ih =>
    obtain ⟨e, he⟩ := h a (List.mem_cons_self a rest)
    simp only [fetchFallbackGo, he]
    rw [ih (c + 1) (fun i hi => h i (List.mem_cons_of_mem a hi))]
    simp only [List.length_cons]
    ring_nf

/-- C1: every tool step executor loop (analyze_data,
retrieve_data_as_df, handle_file_task on non-image files, and the
scrape-fallback loop of extract_relevant_data) performs at most
max_retries execution attempts — the result depends only on the
first max_retries attempt outcomes — and when every attempt fails it
raises a terminal RuntimeError instead of continuing. -/
theorem C1_bounded_retries_terminal_failure :
    (∀ (o1 o2 : Nat → Except PyErr PyVal) (maxRetries : Nat),
      (∀ i, i < maxRetries → o1 i = o2 i) →
      analyze_data o1 maxRetries = analyze_data o2 maxRetries) ∧
    (∀ (o : Nat → Except PyErr PyVal) (maxRetries : Nat),
      (∀ i, i < maxRetries → ∃ e, analyzeAttemptRes o i = .error e) →
      ∃ m, analyze_data o maxRetries = .error (.runtimeError m)) ∧
    (∀ (o1 o2 : Nat → Except PyErr PyVal) (maxRetries : Nat),
      (∀ i, i < maxRetries → o1 i = o2 i) →
      retrieve_data_as_df o1 maxRetries = retrieve_data_as_df o2 maxRetries) ∧
    (∀ (o : Nat → Except PyErr PyVal) (maxRetries : Nat),
      (∀ i, i < maxRetries → ∃ e, retrieveAttemptRes o i = .error e) →
      ∃ m, retrieve_data_as_df o maxRetries = .error (.runtimeError m)) ∧
    (∀ (fp vr td : String) (o1 o2 : Nat → Except PyErr PyVal) (maxRetries : Nat),
      detectFileType fp ≠ "image" →
      (∀ i, i < maxRetries → o1 i = o2 i) →
      handle_file_task fp vr td o1 maxRetries = handle_file_task fp vr td o2 maxRetries) ∧
    (∀ (fp vr td : String) (o : Nat → Except PyErr PyVal) (maxRetries : Nat),
      detectFileType fp ≠ "image" →
      (∀ i, i < maxRetries → ∃ e, fileAttemptRes td o i = .error e) →
      ∃ m, handle_file_task fp vr td o maxRetries = .error (.runtimeError m)) ∧
    (∀ (env : FetchEnv) (o1 o2 : Nat → Except PyErr PyVal) (maxRetries calls : Nat),
      (∀ i, i < maxRetries → o1 i = o2 i) →
      fetchFallbackGo { env with fallbackExec := o1 } (List.range maxRetries) calls =
        fetchFallbackGo { env with fallbackExec := o2 } (List.range maxRetries) calls) ∧
    (∀ (env : FetchEnv) (maxRetries calls : Nat),
      (∀ i, i < maxRetries → ∃ e, fetchAttemptRes env i = .error e) →
      fetchFallbackGo env (List.range maxRetries) calls =
        (.error (.runtimeError "All scraping strategies failed."), calls + maxRetries)) := by
  refine ⟨?_, ?_, ?_, ?_, ?_, ?_, ?_, ?_⟩
  · intro o1 o2 maxRetries h
    exact selfCorrectLoop_congr _ _ _ _ _ _
      (fun i hi => by
        unfold analyzeAttemptRes
        rw [h i (List.mem_range.mp hi)])
  · intro o maxRetries h
    exact selfCorrectLoop_allFail _ _ _ _ _
      (fun i hi => h i (List.mem_range.mp hi))
  · intro o1 o2 maxRetries h
    exact selfCorrectLoop_congr _ _ _ _ _ _
      (fun i hi => by
        unfold retrieveAttemptRes
        rw [h i (List.mem_range.mp hi)])
  · intro o maxRetries h
    exact selfCorrectLoop_allFail _ _ _ _ _
      (fun i hi => h i (List.mem_range.mp hi))
  · intro fp vr td o1 o2 maxRetries hni h
    unfold handle_file_task
    rw [if_neg (by simpa using hni)]
    rw [if_neg (by simpa using hni)]
    exact selfCorrectLoop_congr _ _ _ _ _ _
      (fun i hi => by
        unfold fileAttemptRes
        rw [h i (List.mem_range.mp hi)])
  · intro fp vr td o maxRetries hni h
    unfold handle_file_task
    rw [if_neg (by simpa using hni)]
    exact selfCorrectLoop_allFail _ _ _ _ _
      (fun i hi => h i (List.mem_range.mp hi))
  · intro env o1 o2 maxRetries calls h
    exact fetchFallbackGo_congr env o1 o2 _ calls
      (fun i hi => h i (List.mem_range.mp hi))
  · intro env maxRetries calls h
    rw [fetchFallbackGo_allFail env _ calls
      (fun i hi => h i (List.mem_range.mp hi))]
    simp [List.length_range]

/-- A universally failing per-attempt exec outcome. -/
def cFailExec : Nat → Except PyErr PyVal := fun _ => .error (.valueError "boom")

/-- C1 witness: the theorem applied at concrete failing outcomes with
a budget of 2 for each of the four loops. -/
theorem C1_bounded_retries_witness :
    (analyze_data cFailExec 2 = analyze_data cFailExec 2 ∧
      ∃ m, analyze_data cFailExec 2 = .error (.runtimeError m)) ∧
    (retrieve_data_as_df cFailExec 2 = retrieve_data_as_df cFailExec 2 ∧
      ∃ m, retrieve_data_as_df cFailExec 2 = .error (.runtimeError m)) ∧
    (handle_file_task "/tmp/d.csv" "v" "t" cFailExec 2 =
        handle_file_task "/tmp/d.csv" "v" "t" cFailExec 2 ∧
      ∃ m, handle_file_task "/tmp/d.csv" "v" "t" cFailExec 2 = .error (.runtimeError m)) ∧
    (fetchFallbackGo cZeroEnv (List.range 2) 0 = fetchFallbackGo cZeroEnv (List.range 2) 0 ∧
      fetchFallbackGo cZeroEnv (List.range 2) 0 =
        (.error (.runtimeError "All scraping strategies failed."), 0 + 2)) := by
  obtain ⟨h1, h2, h3, h4, h5, h6, h7, h8⟩ := C1_bounded_retries_terminal_failure
  refine ⟨⟨h1 cFailExec cFailExec 2 (fun i _ => rfl),
           h2 cFailExec 2 (fun i _ => ⟨.valueError "boom", rfl⟩)⟩,
          ⟨h3 cFailExec cFailExec 2 (fun i _ => rfl),
           h4 cFailExec 2 (fun i _ => ⟨.valueError "boom", rfl⟩)⟩,
          ⟨h5 "/tmp/d.csv" "v" "t" cFailExec cFailExec 2 (by decide) (fun i _ => rfl),
           h6 "/tmp/d.csv" "v" "t" cFailExec 2 (by decide) (fun i _ => ⟨.valueError "boom", rfl⟩)⟩,
          ⟨?_, h8 cZeroEnv 2 0 (fun i _ => ⟨.valueError "boom", rfl⟩)⟩⟩
  have := h7 cZeroEnv cFailExec cFailExec 2 0 (fun i _ => rfl)
  exact rfl

/-- With zero uploaded files every resolution strategy fails and
FileNotFoundError is raised. -/
theorem resolveFilePath_nil (pe : String → Bool) (logical : String) :
    resolveFilePath pe [] logical =
      .error (.fileNotFoundError ("Could not resolve file " ++ logical)) := by
  simp [resolveFilePath, ftpLookup, findCaseInsensitive, findPartialMatch, findExtUnique,
    pathOk, pathTruthy]

/-- With exactly one uploaded file, resolution always lands on that
file's materialized path, whatever the logical name. -/
theorem resolveFilePath_single (pe : String → Bool) (logical name path : String)
    (hpath : path ≠ "") (hpe : pe path = true) :
    resolveFilePath pe [(name, path)] logical = .ok path := by
  by_cases h0 : (name == logical) = true
  · simp [resolveFilePath, ftpLookup, List.find?, h0, pathOk, pathTruthy, hpath, hpe]
  · by_cases h1 : (strLower name == strLower logical) = true
    · simp [resolveFilePath, ftpLookup, findCaseInsensitive, List.find?, h0, h1,
        pathOk, pathTruthy, hpath, hpe]
    · by_cases h2 : (strContains (strLower (splitext name).1) (strLower (splitext logical).1)
          || strContains (strLower (splitext logical).1) (strLower (splitext name).1)) = true
      · simp [resolveFilePath, ftpLookup, findCaseInsensitive, findPartialMatch,
          List.find?, h0, h1, h2, pathOk, pathTruthy, hpath, hpe]
      · by_cases h3 : (strLower (splitext logical).2 == "") = true
        · simp [resolveFilePath, ftpLookup, findCaseInsensitive, findPartialMatch,
            findExtUnique, List.find?, List.filter, h0, h1, h2, h3,
            pathOk, pathTruthy, hpath, hpe]
        · by_cases h4 : strEndsWith (strLower name) (strLower (splitext logical).2) = true
          · simp [resolveFilePath, ftpLookup, findCaseInsensitive, findPartialMatch,
              findExtUnique, List.find?, List.filter, h0, h1, h2, h3, h4,
              pathOk, pathTruthy, hpath, hpe]
          · simp [resolveFilePath, ftpLookup, findCaseInsensitive, findPartialMatch,
              findExtUnique, List.find?, List.filter, h0, h1, h2, h3, h4,
              pathOk, pathTruthy, hpath, hpe]

/-- C9: attachment resolution.  A logical name that misses the exact
lookup but matches case-insensitively, by partial name, or uniquely
by extension resolves to the matching file's materialized path; a
single uploaded file resolves whatever the name; and with zero
uploaded files the file_handler step dispatch raises
FileNotFoundError immediately, before the file tool (and hence its
retry/correction loop) could ever run. -/
theorem C9_attachment_resolution :
    (∀ (pe : String → Bool) (logical : String),
      resolveFilePath pe [] logical =
        .error (.fileNotFoundError ("Could not resolve file " ++ logical))) ∧
    (∀ (pe : String → Bool) (logical name path : String),
      path ≠ "" → pe path = true →
      resolveFilePath pe [(name, path)] logical = .ok path) ∧
    (∀ (pe : String → Bool) (ftp : List (String × String)) (logical path : String),
      ftpLookup ftp logical = Option.none →
      findCaseInsensitive ftp logical = some path →
      path ≠ "" → pe path = true →
      resolveFilePath pe ftp logical = .ok path) ∧
    (∀ (pe : String → Bool) (ftp : List (String × String)) (logical path : String),
      ftpLookup ftp logical = Option.none →
      findCaseInsensitive ftp logical = Option.none →
      findPartialMatch ftp logical = some path →
      path ≠ "" → pe path = true →
      resolveFilePath pe ftp logical = .ok path) ∧
    (∀ (pe : String → Bool) (ftp : List (String × String)) (logical path : String),
      ftpLookup ftp logical = Option.none →
      findCaseInsensitive ftp logical = Option.none →
      findPartialMatch ftp logical = Option.none →
      findExtUnique ftp logical = some path →
      path ≠ "" → pe path = true →
      resolveFilePath pe ftp logical = .ok path) ∧
    (∀ (env : AgentEnv) (ctx : Context) (kvs d : List (String × PyVal)) (logical : String),
      dictLookup kvs "tool_name" = some (.str "file_handler.handle_file_task") →
      dictLookup kvs "tool_input" = some (.dict d) →
      optTruthy (dictLookup d "task_description") = true →
      dictLookup d "file_path" = some (.str logical) →
      runStep env [] ctx (.dict kvs) =
        .error (.fileNotFoundError ("Could not resolve file " ++ logical))) := by
  refine ⟨resolveFilePath_nil, resolveFilePath_single, ?_, ?_, ?_, ?_⟩
  · intro pe ftp logical path he hci hp hpe
    simp [resolveFilePath, he, hci, pathOk, pathTruthy, hp, hpe]
  · intro pe ftp logical path he hci hpm hp hpe
    simp [resolveFilePath, he, hci, hpm, pathOk, pathTruthy, hp, hpe]
  · intro pe ftp logical path he hci hpm hex hp hpe
    simp [resolveFilePath, he, hci, hpm, hex, pathOk, pathTruthy, hp, hpe]
  · intro env ctx kvs d logical h hti htd hfp
    simp only [runStep, h, hti, htd, resolveFilePath_nil, hfp]
    rfl

/-- An agent environment with no attachments whose plan generation
always fails to parse and whose tools always fail. -/
def cFailEnv : AgentEnv :=
  { taskText := "  sum column b  "
    attachments := []
    planParsed := fun _ _ => Option.none
    retrieveTool := fun _ => .error (.valueError "boom")
    fetchTool := fun _ _ => .error (.valueError "boom")
    fileTool := fun _ _ _ => .error (.valueError "boom")
    analyzeTool := fun _ _ => .error (.valueError "boom")
    tempPath := fun _ _ => "/tmp/x"
    pathExists := fun _ => true
    dfMarkdown := fun _ => "" }

/-- C9 witness: the resolution theorem applied to concrete uploads:
a single file under a different name, a case-insensitive match, a
partial-name match, a unique-extension match, and a zero-upload
file_handler step. -/
theorem C9_attachment_resolution_witness :
    resolveFilePath (fun _ => true) [("weird.bin", "/tmp/a")] "q1.csv" = .ok "/tmp/a" ∧
    resolveFilePath (fun _ => true) [("DATA.CSV", "/tmp/b"), ("other.txt", "/tmp/o")]
      "data.csv" = .ok "/tmp/b" ∧
    resolveFilePath (fun _ => true) [("sales_data.csv", "/tmp/c"), ("other.txt", "/tmp/o")]
      "sales.xlsx" = .ok "/tmp/c" ∧
    resolveFilePath (fun _ => true) [("report.pdf", "/tmp/e"), ("other.txt", "/tmp/o")]
      "doc.pdf" = .ok "/tmp/e" ∧
    runStep cFailEnv [] []
      (.dict [("tool_name", .str "file_handler.handle_file_task"),
              ("tool_input", .dict [("task_description", .str "get the table"),
                                    ("file_path", .str "a.csv")])]) =
      .error (.fileNotFoundError ("Could not resolve file " ++ "a.csv")) := by
  obtain ⟨_, h2, h3, h4, h5, h6⟩ := C9_attachment_resolution
  refine ⟨h2 (fun _ => true) "q1.csv" "weird.bin" "/tmp/a" (by decide) rfl,
          h3 (fun _ => true) _ "data.csv" "/tmp/b" rfl rfl (by decide) rfl,
          h4 (fun _ => true) _ "sales.xlsx" "/tmp/c" rfl rfl rfl (by decide) rfl,
          h5 (fun _ => true) _ "doc.pdf" "/tmp/e" rfl rfl rfl rfl (by decide) rfl,
          h6 cFailEnv [] _ [("task_description", .str "get the table"),
                            ("file_path", .str "a.csv")] "a.csv" rfl rfl rfl rfl⟩

/-- Storing a step result adds at most the step's own name to the
context keys. -/
theorem ctxKeys_ctxSet (ctx : Context) (k v : PyVal) (x : PyVal)
    (h : x ∈ ctxKeys (ctxSet ctx k v)) : x = k ∨ x ∈ ctxKeys ctx := by
  unfold ctxSet at h
  by_cases hc : (List.any ctx (fun p => pyBeq p.1 k)) = true
  · rw [if_pos hc] at h
    right
    unfold ctxKeys at h ⊢
    rw [List.map_map] at h
    have : (Prod.fst ∘ fun p : PyVal × PyVal => if pyBeq p.1 k then (p.1, v) else p)
        = Prod.fst := by
      funext p
      by_cases hp : pyBeq p.1 k = true <;> simp [hp]
    rwa [this] at h
  · rw [if_neg hc] at h
    unfold ctxKeys at h
    rw [List.map_append] at h
    rcases List.mem_append.mp h with hl | hr
    · right; exact hl
    · left
      simpa using hr

/-- Keys added by the step loop all come from the names of the steps
it executed. -/
theorem executeSteps_keys (env : AgentEnv) (ftp : List (String × String))
    (steps : List PyVal) (i : Nat) (ctx : Context) (res : AgentResults) (k : PyVal)
    (h : k ∈ ctxKeys (executeSteps env ftp steps i ctx res).1) :
    k ∈ ctxKeys ctx ∨ k ∈ stepNamesFrom steps i := by
  induction steps generalizing i ctx res with
  | nil =>
    left
    simpa [executeSteps] using h
  | cons step rest ih =>
    simp only [executeSteps] at h
    cases hr : runStep env ftp ctx step with
    | error e =>
      rw [hr] at h
      left
      simpa using h
    | ok v =>
      rw [hr] at h
      rcases ih (i + 1) (ctxSet ctx (stepNameVal step i) v) _ h with hin | hnames
      · rcases ctxKeys_ctxSet ctx (stepNameVal step i) v k hin with heq | hold
        · right
          rw [heq]
          exact List.mem_cons_self _ _
        · left
          exact hold
      · right
        exact List.mem_cons_of_mem _ hnames

/-- C3: every whole-run retry attempt starts from an empty
step-result context and a plan generated afresh from the original
task input, so every key of the context reached during one attempt
is a step name of that attempt's own plan — nothing from a previous
attempt's context can appear. -/
theorem C3_context_keys_from_fresh_plan (env : AgentEnv) (a : Nat) (k : PyVal)
    (h : k ∈ ctxKeys (attemptContext env a)) : k ∈ attemptPlanNames env a := by
  unfold attemptContext agentAttemptFull at h
  cases hp : get_plan (env.planParsed a) with
  | error e =>
    rw [hp] at h
    simp [ctxKeys] at h
  | ok planVal =>
    rw [hp] at h
    cases planVal with
    | list steps =>
      have := executeSteps_keys env (ftpOf env a) steps 0 [] (baseResults env) k h
      rcases this with habs | hn
      · simp [ctxKeys] at habs
      · unfold attemptPlanNames
        rw [hp]
        exact hn
    | none => simp [ctxKeys] at h
    | str s => simp [ctxKeys] at h
    | int n => simp [ctxKeys] at h
    | npscalar n => simp [ctxKeys] at h
    | bytes b => simp [ctxKeys] at h
    | pil b => simp [ctxKeys] at h
    | df d => simp [ctxKeys] at h
    | bool b => simp [ctxKeys] at h
    | dict kvs => simp [ctxKeys] at h

/-- An agent environment whose plan is one retrieval step named data
and whose retrieval tool succeeds with a table. -/
def cPlanEnv : AgentEnv :=
  { cFailEnv with
    planParsed := fun _ _ => some (.list [.dict
      [("tool_name", .str "duckdb_runner.retrieve_data_as_df"),
       ("tool_input", .str "select"),
       ("step_name", .str "data")]])
    retrieveTool := fun _ => .ok (.df ⟨1, 1, 0⟩) }

/-- C3 witness: the key stored by a successful one-step attempt is a
name of that attempt's plan. -/
theorem C3_context_keys_witness : (.str "data" : PyVal) ∈ attemptPlanNames cPlanEnv 0 := by
  apply C3_context_keys_from_fresh_plan cPlanEnv 0 (.str "data")
  rw [show ctxKeys (attemptContext cPlanEnv 0) = [.str "data"] from rfl]
  exact List.mem_singleton.mpr rfl

/-- The global retry loop returns normally whenever the listed
attempts include the final one of the budget. -/
theorem handleTaskGo_total (env : AgentEnv) (maxGlobalRetries : Nat) (l : List Nat)
    (h : ∃ a ∈ l, a + 1 = maxGlobalRetries) :
    ∃ r, handleTaskGo env maxGlobalRetries l = .ok r := by
  induction l with
  | nil =>
    obtain ⟨a, ha, _⟩ := h
    exact absurd ha (List.not_mem_nil a)
  | cons b rest ih =>
    simp only [handleTaskGo]
    cases hb : agentAttempt env b with
    | mk res o =>
      cases o with
      | none => exact ⟨res, rfl⟩
      | some e =>
        by_cases hm : (b + 1 == maxGlobalRetries) = true
        · exact ⟨{ res with error := some (pyErrStr e) }, by simp [hm]⟩
        · have hne : b + 1 ≠ maxGlobalRetries := by simpa using hm
          obtain ⟨a, ha, haeq⟩ := h
          rcases List.mem_cons.mp ha with rfl | hrest
          · exact absurd haeq hne
          · obtain ⟨r, hr⟩ := ih ⟨a, hrest, haeq⟩
            exact ⟨r, by simp [hm, hr]⟩

/-- When every listed attempt fails and the final budget index is
listed, the loop returns a report with the error field set. -/
theorem handleTaskGo_allFail (env : AgentEnv) (maxGlobalRetries : Nat) (l : List Nat)
    (hfail : ∀ a ∈ l, (agentAttempt env a).2.isSome = true)
    (h : ∃ a ∈ l, a + 1 = maxGlobalRetries) :
    ∃ r, handleTaskGo env maxGlobalRetries l = .ok r ∧ r.error.isSome = true := by
  induction l with
  | nil =>
    obtain ⟨a, ha, _⟩ := h
    exact absurd ha (List.not_mem_nil a)
  | cons b rest ih =>
    have hb := hfail b (List.mem_cons_self b rest)
    cases hab : agentAttempt env b with
    | mk res o =>
      rw [hab] at hb
      cases o with
      | none => simp at hb
      | some e =>
        simp only [handleTaskGo, hab]
        by_cases hm : (b + 1 == maxGlobalRetries) = true
        · exact ⟨{ res with error := some (pyErrStr e) }, by simp [hm], rfl⟩
        · have hne : b + 1 ≠ maxGlobalRetries := by simpa using hm
          obtain ⟨a, ha, haeq⟩ := h
          rcases List.mem_cons.mp ha with rfl | hrest
          · exact absurd haeq hne
          · obtain ⟨r, hr, herr⟩ :=
              ih (fun x hx => hfail x (List.mem_cons_of_mem b hx)) ⟨a, hrest, haeq⟩
            exact ⟨r, by simp [hm, hr], herr⟩

/-- C6: the task-submission boundary never raises.  With any positive
global budget handle_task returns a report (a value of AgentResults,
whose fields are exactly task, reasoning, dataframe_preview,
final_answers and error); when every attempt fails, the report's
error field is set instead of an exception propagating; and the /api
endpoint maps any exception of its body to a response object with an
error field instead of raising. -/
theorem C6_boundary_never_raises :
    (∀ (env : AgentEnv) (maxGlobalRetries : Nat), 0 < maxGlobalRetries →
      ∃ r, handle_task env maxGlobalRetries = .ok r) ∧
    (∀ (env : AgentEnv) (maxGlobalRetries : Nat), 0 < maxGlobalRetries →
      (∀ a, a < maxGlobalRetries → (agentAttempt env a).2.isSome = true) →
      ∃ r, handle_task env maxGlobalRetries = .ok r ∧ r.error.isSome = true) ∧
    (∀ (envOf : String → List (String × List Nat) → AgentEnv) (e : PyErr),
      api_analyze (.error e) envOf = .dict [("error", .str (pyErrStr e))]) := by
  refine ⟨?_, ?_, fun envOf e => rfl⟩
  · intro env maxGlobalRetries hpos
    apply handleTaskGo_total
    exact ⟨maxGlobalRetries - 1, List.mem_range.mpr (Nat.pred_lt (Nat.pos_iff_ne_zero.mp hpos)),
      Nat.succ_pred_eq_of_pos hpos⟩
  · intro env maxGlobalRetries hpos hfail
    apply handleTaskGo_allFail
    · intro a ha
      exact hfail a (List.mem_range.mp ha)
    · exact ⟨maxGlobalRetries - 1, List.mem_range.mpr (Nat.pred_lt (Nat.pos_iff_ne_zero.mp hpos)),
        Nat.succ_pred_eq_of_pos hpos⟩

/-- C6 witness: the boundary theorem applied to the failing concrete
environment with the default budget of three. -/
theorem C6_boundary_witness :
    (∃ r, handle_task cFailEnv 3 = .ok r) ∧
    (∃ r, handle_task cFailEnv 3 = .ok r ∧ r.error.isSome = true) := by
  obtain ⟨h1, h2, _⟩ := C6_boundary_never_raises
  exact ⟨h1 cFailEnv 3 (by norm_num),
         h2 cFailEnv 3 (by norm_num) (fun a _ => rfl)⟩

/-- C2 witness: the dispatch theorem applied to a concrete analyze
step reached with an empty context. -/
theorem C2_analyze_dispatch_witness :
    executeSteps cFailEnv []
      [.dict [("tool_name", .str "analyze.analyze_data"),
              ("tool_input", .str "sum column b"),
              ("step_name", .str "final")]] 0 [] (baseResults cFailEnv) =
      ([], baseResults cFailEnv, some (.typeError analyzeKwErrMsg)) := by
  obtain ⟨_, h2⟩ := C2_analyze_dispatch_type_error
  exact h2 cFailEnv [] [] _ [] 0 (baseResults cFailEnv) rfl

/-- A concrete well-formed one-step plan value. -/
def cGoodPlanVal : PyVal :=
  .list [.dict [("tool_name", .str "fetch.extract_relevant_data"),
                ("tool_input", .dict [("url", .str "https://example.com/table"),
                                      ("task_description", .str "get the table")]),
                ("step_name", .str "data")]]

/-- C8 witness: the plan theorem applied to a parse stream returning
a valid plan and to one that never parses. -/
theorem C8_plan_witness :
    (∃ steps : List PyVal, cGoodPlanVal = .list steps ∧ steps ≠ [] ∧
      ∀ st ∈ steps, ∃ kvs, st = .dict kvs ∧
        (dictLookup kvs "tool_name").isSome = true ∧
        (dictLookup kvs "tool_input").isSome = true ∧
        (dictLookup kvs "step_name").isSome = true) ∧
    get_plan (fun _ => Option.none) = .error (.runtimeError planFailMsg) := by
  obtain ⟨h1, h2⟩ := C8_plan_wellformed_or_runtime_error
  exact ⟨h1 (fun _ => some cGoodPlanVal) cGoodPlanVal rfl,
         h2 (fun _ => Option.none)
           (fun i _ => ⟨.valueError "LLM did not return a valid JSON list.", rfl⟩)⟩
